import Mathlib

/-!
Verification of the selfstart control plane against its specification.

Each Python module of the repository is shallowly embedded as executable
Lean definitions: dataclasses become structures, string enums become
inductive types, float arithmetic is carried out over `ℚ`, timestamps are
`ℚ` seconds, and the outcome of outbound I/O (HTTP probes, the runtime
adapter, random draws, the shared round-robin counter) is passed in as an
explicit argument so that every behaviour of the code corresponds to some
choice of those arguments.
-/

namespace Selfstart

/-- Dictionary lookup on an association list (Python `d.get(k)` /
`d[k]`). -/
def lookupA {α : Type} : List (String × α) → String → Option α
  | [], _ => none
  | (k0, v) :: rest, k => if k0 = k then some v else lookupA rest k

/-- Dictionary update `d[k] = v` on an association list, preserving Python
dict insertion order: overwrite in place, else append. -/
def insertA {α : Type} : List (String × α) → String → α → List (String × α)
  | [], k, v => [(k, v)]
  | (k0, w) :: rest, k, v =>
    if k0 = k then (k, v) :: rest else (k0, w) :: insertA rest k v

/-! ## Proxy manager (`proxy_manager.py`) -/

namespace Proxy

/-- Selection policies of `ProxyRule` in `proxy_manager.py`. -/
inductive ProxyRule where
  | round_robin
  | least_connections
  | weighted
  | ip_hash
  | health_based
deriving DecidableEq, Repr

/-- Backend statuses of `BackendStatus` in `proxy_manager.py`. -/
inductive BackendStatus where
  | healthy
  | unhealthy
  | draining
  | maintenance
deriving DecidableEq, Repr

/-- The `Backend` dataclass.  Counters are naturals (they are only ever
incremented from 0); `response_time` and the health-check stamp are `ℚ`. -/
structure Backend where
  host : String
  port : Nat
  weight : Int := 1
  max_connections : Nat := 100
  current_connections : Nat := 0
  status : BackendStatus := BackendStatus.healthy
  last_health_check : Option ℚ := none
  response_time : ℚ := 0
  error_count : Nat := 0
  success_count : Nat := 0
deriving DecidableEq, Repr

/-- `Backend.url`: the backend's address string. -/
def Backend.url (b : Backend) : String :=
  b.host ++ ":" ++ toString b.port

/-- `Backend.health_ratio`: `success / (success + error)` when at least one
request was recorded, `1.0` otherwise. -/
def Backend.health_ratio (b : Backend) : ℚ :=
  if b.success_count + b.error_count > 0 then
    (b.success_count : ℚ) / ((b.success_count + b.error_count : Nat) : ℚ)
  else 1

/-- The `ProxyTarget` dataclass (fields used by selection and probing). -/
structure ProxyTarget where
  name : String
  backends : List Backend
  rule : ProxyRule := ProxyRule.round_robin
  health_check_path : String := "/health"
  health_check_interval : ℚ := 30
  health_check_timeout : ℚ := 5
  sticky_sessions : Bool := false
deriving Repr

/-- `ProxyTarget.get_healthy_backends`: backends whose status is `healthy`. -/
def ProxyTarget.get_healthy_backends (t : ProxyTarget) : List Backend :=
  t.backends.filter (fun b => b.status = BackendStatus.healthy)

/-- Python's `max(xs, key=k)` over a nonempty list: the first element
attaining the maximal key (later elements replace only on strictly
greater key). -/
def pyMaxBy (k : Backend → ℚ) : Backend → List Backend → Backend
  | cur, [] => cur
  | cur, b :: rest => if k b > k cur then pyMaxBy k b rest else pyMaxBy k cur rest

/-- Python's `min(xs, key=k)` over a nonempty list: the first element
attaining the minimal key. -/
def pyMinBy (k : Backend → ℚ) : Backend → List Backend → Backend
  | cur, [] => cur
  | cur, b :: rest => if k b < k cur then pyMinBy k b rest else pyMinBy k cur rest

/-- The subtraction loop of `_weighted_select`: decrement `r` by each
weight and stop at the first backend driving it to `≤ 0`; if the list is
exhausted the last backend is returned (`backends[-1]`). -/
def weightedLoop : Int → Backend → List Backend → Backend
  | r, b, rest =>
    let r2 := r - b.weight
    if r2 ≤ 0 then b
    else
      match rest with
      | [] => b
      | c :: cs => weightedLoop r2 c cs

/-- `_weighted_select` on a nonempty backend list; `r` stands for the draw
`random.randint(1, total_weight)`. -/
def weighted_select (b0 : Backend) (rest : List Backend) (r : Int) : Backend :=
  let total : Int := ((b0 :: rest).map Backend.weight).sum
  if total = 0 then b0
  else weightedLoop r b0 rest

/-- `_ip_hash_select` on a nonempty backend list; `hashVal` stands for the
md5 hash of the client IP. -/
def ip_hash_select (b0 : Backend) (rest : List Backend) (clientIp : Option String)
    (hashVal : Nat) : Backend :=
  match clientIp with
  | none => b0
  | some _ => (b0 :: rest).getD (hashVal % (b0 :: rest).length) b0

/-- `_round_robin_select` on a nonempty backend list; `idx` stands for the
shared counter read from the registry store (or the local time fallback). -/
def round_robin_select (b0 : Backend) (rest : List Backend) (idx : Nat) : Backend :=
  (b0 :: rest).getD (idx % (b0 :: rest).length) b0

/-- The sticky-session branch of `_select_backend`: when the target pins
sessions and the session store maps the request's session id to a URL,
scan the healthy backends for that URL.  `sessionUrl` is the session store
lookup for the request's session id. -/
def sticky_lookup (target : ProxyTarget) (sessionUrl : Option String)
    (healthy : List Backend) : Option Backend :=
  if target.sticky_sessions then
    match sessionUrl with
    | some u => healthy.find? (fun b => b.url = u)
    | none => none
  else none

/-- The rule dispatch of `_select_backend` over a nonempty healthy list. -/
def dispatch_rule (target : ProxyTarget) (b0 : Backend) (rest : List Backend)
    (rrIdx : Nat) (randVal : Int) (hashVal : Nat) (clientIp : Option String) :
    Backend :=
  match target.rule with
  | ProxyRule.round_robin => round_robin_select b0 rest rrIdx
  | ProxyRule.least_connections =>
      pyMinBy (fun b => (b.current_connections : ℚ)) b0 rest
  | ProxyRule.weighted => weighted_select b0 rest randVal
  | ProxyRule.ip_hash => ip_hash_select b0 rest clientIp hashVal
  | ProxyRule.health_based => pyMaxBy Backend.health_ratio b0 rest

/-- `_select_backend` over an explicit healthy-backend list. -/
def select_from (target : ProxyTarget) (sessionUrl : Option String)
    (rrIdx : Nat) (randVal : Int) (hashVal : Nat) (clientIp : Option String) :
    List Backend → Option Backend
  | [] => none
  | b0 :: rest =>
    match sticky_lookup target sessionUrl (b0 :: rest) with
    | some b => some b
    | none => some (dispatch_rule target b0 rest rrIdx randVal hashVal clientIp)

/-- `_select_backend`: filter to healthy backends, honour sticky sessions,
then dispatch on the target's rule. -/
def select_backend (target : ProxyTarget) (sessionUrl : Option String)
    (rrIdx : Nat) (randVal : Int) (hashVal : Nat) (clientIp : Option String) :
    Option Backend :=
  select_from target sessionUrl rrIdx randVal hashVal clientIp
    target.get_healthy_backends

/-- `_check_backend_health`: the probe outcome is `some status` for an HTTP
response and `none` for a connection error; the backend's status is
overwritten from the outcome alone and the check is stamped. -/
def check_backend_health (b : Backend) (probe : Option Nat) (now : ℚ) : Backend :=
  match probe with
  | some st =>
      if st = 200 then
        { b with status := BackendStatus.healthy, last_health_check := some now }
      else
        { b with status := BackendStatus.unhealthy, last_health_check := some now }
  | none => { b with status := BackendStatus.unhealthy, last_health_check := some now }

/-- The probe-eligibility guard of `_check_target_health`: a backend is
probed when its last check is at least `health_check_interval` old (a
never-checked backend counts as infinitely old); the backend's status is
not consulted. -/
def probe_due (t : ProxyTarget) (b : Backend) (now : ℚ) : Bool :=
  match b.last_health_check with
  | none => true
  | some last => now - last ≥ t.health_check_interval

end Proxy

/-! ## Container orchestrator (`container_orchestrator.py`) -/

namespace Orchestrator

/-- Container states of `ContainerState` in `container_orchestrator.py`. -/
inductive ContainerState where
  | stopped
  | starting
  | running
  | stopping
  | error
  | unhealthy
deriving DecidableEq, Repr

/-- The `ContainerConfig` dataclass (fields used by registration and
startup). -/
structure ContainerConfig where
  name : String
  image : String := ""
  dependencies : List String := []
  has_health_check : Bool := false
  startup_timeout : ℚ := 120
  shutdown_timeout : ℚ := 30
deriving DecidableEq, Repr

/-- The `ContainerStatus` dataclass. -/
structure ContainerStatus where
  name : String
  state : ContainerState
  container_id : Option String := none
  started_at : Option ℚ := none
  last_health_check : Option ℚ := none
  health_status : String := "unknown"
  error_message : Option String := none
  restart_count : Nat := 0
deriving DecidableEq, Repr

/-- In-memory state of a `ContainerOrchestrator`: the `containers` and
`configs` dictionaries as association lists (Python dict insertion order)
and the `startup_queue` as a list with its head at the queue's front.
`queue_maxsize` records the bound the queue was created with;
`asyncio.Queue()` is called with no argument, so it is 0, which for
`asyncio` means unbounded. -/
structure OrchestratorState where
  containers : List (String × ContainerStatus) := []
  configs : List (String × ContainerConfig) := []
  startup_queue : List (String × ContainerConfig) := []
  queue_maxsize : Nat := 0
deriving Repr

/-- The fresh `ContainerStatus` built by `register_container`. -/
def initStatus (name : String) : ContainerStatus :=
  { name := name, state := ContainerState.stopped }

/-- `register_container`: store the config unconditionally and initialise
the status when absent.  No inspection of `dependencies` happens here. -/
def register_container (s : OrchestratorState) (cfg : ContainerConfig) :
    OrchestratorState :=
  let configs := insertA s.configs cfg.name cfg
  let containers :=
    if (lookupA s.containers cfg.name).isSome then s.containers
    else insertA s.containers cfg.name (initStatus cfg.name)
  { s with configs := configs, containers := containers }

/-- Overwrite the state field of a container's status. -/
def setState (s : OrchestratorState) (name : String) (st : ContainerState) :
    OrchestratorState :=
  { s with containers :=
      s.containers.map (fun p =>
        if p.1 = name then (p.1, { p.2 with state := st }) else p) }

/-- Overwrite state and error message (the `except` branch of
`start_container`). -/
def setErrorState (s : OrchestratorState) (name : String) (msg : String) :
    OrchestratorState :=
  { s with containers :=
      s.containers.map (fun p =>
        if p.1 = name then
          (p.1, { p.2 with state := ContainerState.error, error_message := some msg })
        else p) }

/-- `startup_queue.put`: append at the tail (the queue is unbounded, so the
put never blocks and never fails). -/
def enqueue (s : OrchestratorState) (name : String) (cfg : ContainerConfig) :
    OrchestratorState :=
  { s with startup_queue := s.startup_queue ++ [(name, cfg)] }

/-- `startup_queue.get` as performed by a startup worker: pop the head. -/
def dequeue (s : OrchestratorState) :
    Option ((String × ContainerConfig) × OrchestratorState) :=
  match s.startup_queue with
  | [] => none
  | item :: rest => some (item, { s with startup_queue := rest })

/-- State of a container as seen in `self.containers`, defaulting to
`stopped` only for the totality of the model (lookups in the embedded
paths are always preceded by membership checks, as in the source). -/
def stateOf (s : OrchestratorState) (name : String) : Option ContainerState :=
  (lookupA s.containers name).map ContainerStatus.state

/-- The loop of `_start_dependencies`, parameterized by the recursive
start call: for each dependency known to the orchestrator and not yet
`running`, issue a start and then wait for it to reach `running`; a
dependency that does not reach `running` raises a timeout (modelled as the
`false` flag).  The model is synchronous: worker tasks do not run during
the dependency wait, so the wait succeeds exactly when the dependency is
already `running` when polled; this matches every execution of the source
on dependency sets none of whose members can be brought to `running` by a
worker. -/
def start_dependencies_with
    (startF : OrchestratorState → String → Bool → Bool × OrchestratorState) :
    OrchestratorState → List String → OrchestratorState × Bool
  | s, [] => (s, true)
  | s, dep :: rest =>
    match lookupA s.containers dep with
    | none => start_dependencies_with startF s rest
    | some depSt =>
      if depSt.state = ContainerState.running then
        start_dependencies_with startF s rest
      else
        let s1 := (startF s dep false).2
        if stateOf s1 dep = some ContainerState.running then
          start_dependencies_with startF s1 rest
        else (s1, false)

/-- `start_container(name, force)`, returning the success flag and the
updated state.  `fuel` bounds the recursion depth through dependencies and
is a modelling artifact only (the concrete theorems pick it large
enough). -/
def start_container : Nat → OrchestratorState → String → Bool →
    Bool × OrchestratorState
  | 0, s, _, _ => (false, s)
  | fuel + 1, s, name, force =>
    match lookupA s.configs name with
    | none => (false, s)
    | some cfg =>
      match lookupA s.containers name with
      | none => (false, s)
      | some st =>
        if st.state = ContainerState.running ∧ ¬force then (true, s)
        else if st.state = ContainerState.starting then (true, s)
        else
          let s1 := setState s name ContainerState.starting
          if cfg.dependencies.isEmpty then (true, enqueue s1 name cfg)
          else
            match start_dependencies_with
                (fun s2 n f => start_container fuel s2 n f) s1
                cfg.dependencies with
            | (s2, true) => (true, enqueue s2 name cfg)
            | (s2, false) =>
                (false, setErrorState s2 name ("Timeout dependance"))

/-- `_start_dependencies` at a given recursion budget. -/
def start_dependencies (fuel : Nat) :
    OrchestratorState → List String → OrchestratorState × Bool :=
  start_dependencies_with (start_container fuel)

/-- Result of one orchestrator health check over a container, given the
runtime's view and the outcome of the configured check.
`runtimeStatus = none` models the runtime raising NotFound; otherwise it
is the container's runtime status string.  `healthOk` is the outcome of
`_check_container_health` (HTTP 200 or exec exit 0). -/
def perform_health_check (st : ContainerStatus) (cfg : Option ContainerConfig)
    (runtimeStatus : Option String) (healthOk : Bool) (now : ℚ) :
    ContainerStatus :=
  match runtimeStatus with
  | none =>
      { st with state := ContainerState.stopped, container_id := none }
  | some rs =>
      let st1 :=
        if rs ≠ "running" then
          { st with state := ContainerState.unhealthy,
                    health_status := "Container status: " ++ rs }
        else
          match cfg with
          | some c =>
              if c.has_health_check then
                if healthOk then { st with health_status := "healthy" }
                else { st with state := ContainerState.unhealthy,
                               health_status := "unhealthy" }
              else { st with health_status := "healthy" }
          | none => { st with health_status := "healthy" }
      { st1 with last_health_check := some now }

/-- The filter of `_health_check_loop`: only containers whose state is
`running` and that carry a container id are health-checked. -/
def health_loop_checks (s : OrchestratorState) (name : String) : Bool :=
  match lookupA s.containers name with
  | some st => st.state = ContainerState.running ∧ st.container_id.isSome
  | none => false

/-- One iteration of `_health_check_loop`: each eligible container's status
is replaced by the result of its health check; every other container is
left untouched.  The oracles give, per container, the runtime status and
the health outcome. -/
def health_loop_step (s : OrchestratorState)
    (runtimeStatus : String → Option String) (healthOk : String → Bool)
    (now : ℚ) : OrchestratorState :=
  { s with containers :=
      s.containers.map (fun p =>
        if p.2.state = ContainerState.running ∧ p.2.container_id.isSome then
          (p.1, perform_health_check p.2 (lookupA s.configs p.1)
                  (runtimeStatus p.1) (healthOk p.1) now)
        else p) }

/-- Modelled from the spec: the cycle detector the specification requires
registration to run (`A simple cycle detector rejects cyclic dependencies
with a fatal error`); no such detector exists in
`container_orchestrator.py`.  A config set is cyclic when some registered
name can reach itself by following `dependencies` edges. -/
def depends_on (configs : List (String × ContainerConfig)) (n : String) :
    List String :=
  match lookupA configs n with
  | some cfg => cfg.dependencies
  | none => []

/-- Fuel-bounded reachability step used by the spec-side cycle detector. -/
def reach_step (configs : List (String × ContainerConfig)) :
    Nat → List String → List String
  | 0, frontier => frontier
  | k + 1, frontier =>
      reach_step configs k
        ((frontier ++ frontier.flatMap (depends_on configs)).dedup)

/-- Modelled from the spec: whether the registered configuration set
contains a dependency cycle. -/
def has_dependency_cycle (configs : List (String × ContainerConfig)) : Bool :=
  configs.any (fun p =>
    p.1 ∈ reach_step configs (configs.length + 1) (depends_on configs p.1))

end Orchestrator

/-! ## Auto-scaler (`auto_scaler.py`) -/

namespace Scaler

/-- Directions of `ScalingDirection` in `auto_scaler.py`. -/
inductive ScalingDirection where
  | up
  | down
  | none
deriving DecidableEq, Repr

/-- The `ScalingPolicy` dataclass. -/
structure ScalingPolicy where
  service_name : String
  enabled : Bool := true
  cpu_scale_up_threshold : ℚ := 80
  memory_scale_up_threshold : ℚ := 85
  network_scale_up_threshold : ℚ := 100
  cpu_scale_down_threshold : ℚ := 30
  memory_scale_down_threshold : ℚ := 40
  network_scale_down_threshold : ℚ := 20
  scale_up_cooldown : ℚ := 300
  scale_down_cooldown : ℚ := 600
  min_replicas : Int := 1
  max_replicas : Int := 10
  evaluation_periods : Nat := 3
  evaluation_interval : ℚ := 60
  enable_prediction : Bool := true
deriving Repr

/-- The `ScalingMetrics` dataclass (axes used by decisions). -/
structure ScalingMetrics where
  cpu_percent : ℚ
  memory_percent : ℚ
  network_in_mbps : ℚ
  network_out_mbps : ℚ
  request_rate : ℚ := 0
  response_time_ms : ℚ := 0
  error_rate : ℚ := 0
deriving DecidableEq, Repr

/-- The `ScalingEvent` audit record. -/
structure ScalingEvent where
  service_name : String
  direction : ScalingDirection
  from_replicas : Int
  to_replicas : Int
  timestamp : ℚ
  success : Bool := false
deriving DecidableEq, Repr

/-- In-memory state of an `AutoScaler`. -/
structure AutoScalerState where
  metrics_history : List (String × List ScalingMetrics) := []
  last_scaling_actions : List (String × ℚ) := []
  current_replicas : List (String × Int) := []
  scaling_events : List ScalingEvent := []
  prediction_enabled : Bool := true
  prediction_samples : Nat := 10
deriving Repr

/-- Python's `xs[-n:]`: the last `n` elements, the whole list when
`n = 0`. -/
def takeLast {α : Type} (xs : List α) (n : Nat) : List α :=
  if n = 0 then xs else xs.drop (xs.length - n)

/-- `_get_recent_metrics`: last `count` stored samples of the service. -/
def get_recent_metrics (s : AutoScalerState) (name : String) (count : Nat) :
    List ScalingMetrics :=
  match lookupA s.metrics_history name with
  | some xs => takeLast xs count
  | none => []

/-- `statistics.mean` (all call sites guard against the empty list; `ℚ`
division by zero yields 0 there). -/
def mean (xs : List ℚ) : ℚ :=
  xs.sum / (xs.length : ℚ)

/-- `_predict_metric`: weighted moving average with linear weights `1..n`
plus three periods of linear trend, clamped below at 0; zero when fewer
than three samples exist. -/
def predict_metric (s : AutoScalerState) (name : String)
    (getter : ScalingMetrics → ℚ) : ℚ :=
  let metrics := get_recent_metrics s name s.prediction_samples
  if metrics.length < 3 then 0
  else
    let values := takeLast (metrics.map getter) s.prediction_samples
    let n := values.length
    let weights := (List.range n).map (fun i => ((i + 1 : Nat) : ℚ))
    let weighted_avg :=
      ((weights.zip values).map (fun p => p.1 * p.2)).sum / weights.sum
    if values.length ≥ 2 then
      let trend := (values.getLastD 0 - values.headD 0) / (n : ℚ)
      max 0 (weighted_avg + trend * 3)
    else weighted_avg

/-- `_is_cooldown_expired`: no recorded action, or at least
`min(scale_up_cooldown, scale_down_cooldown)` seconds since the last
one. -/
def is_cooldown_expired (lastAction : Option ℚ) (policy : ScalingPolicy)
    (now : ℚ) : Bool :=
  match lastAction with
  | Option.none => true
  | some t => now - t ≥ min policy.scale_up_cooldown policy.scale_down_cooldown

/-- `_get_current_replicas`: the cached count, else 1 when discovery
reports the service running and 0 otherwise (`serviceRunning` stands for
that discovery lookup). -/
def get_current_replicas (s : AutoScalerState) (name : String)
    (serviceRunning : Bool) : Int :=
  match lookupA s.current_replicas name with
  | some r => r
  | Option.none => if serviceRunning then 1 else 0

/-- `_make_scaling_decision`: cooldown gate, then sample-count gate, then
threshold comparison of the (optionally prediction-blended) window means,
bounded by the replica limits. -/
def make_scaling_decision (s : AutoScalerState) (name : String)
    (policy : ScalingPolicy) (now : ℚ) (serviceRunning : Bool) :
    ScalingDirection :=
  if ¬ is_cooldown_expired (lookupA s.last_scaling_actions name) policy now then
    ScalingDirection.none
  else
    let recent := get_recent_metrics s name policy.evaluation_periods
    if recent.length < policy.evaluation_periods then ScalingDirection.none
    else
      let avg_cpu0 := mean (recent.map ScalingMetrics.cpu_percent)
      let avg_memory0 := mean (recent.map ScalingMetrics.memory_percent)
      let avg_network :=
        mean (recent.map (fun m => max m.network_in_mbps m.network_out_mbps))
      let blended :=
        if policy.enable_prediction ∧ s.prediction_enabled then
          (avg_cpu0 * (7 / 10) + predict_metric s name ScalingMetrics.cpu_percent * (3 / 10),
           avg_memory0 * (7 / 10) + predict_metric s name ScalingMetrics.memory_percent * (3 / 10))
        else (avg_cpu0, avg_memory0)
      let avg_cpu := blended.1
      let avg_memory := blended.2
      let current_replicas := get_current_replicas s name serviceRunning
      if avg_cpu > policy.cpu_scale_up_threshold ∨
         avg_memory > policy.memory_scale_up_threshold ∨
         avg_network > policy.network_scale_up_threshold then
        if current_replicas < policy.max_replicas then ScalingDirection.up
        else ScalingDirection.none
      else if avg_cpu < policy.cpu_scale_down_threshold ∧
              avg_memory < policy.memory_scale_down_threshold ∧
              avg_network < policy.network_scale_down_threshold then
        if current_replicas > policy.min_replicas then ScalingDirection.down
        else ScalingDirection.none
      else ScalingDirection.none

/-- `_execute_scaling_action`:  compute the clamped replica step; when it
is a no-op, return unchanged; otherwise record a `ScalingEvent` carrying
the outcome of `_scale_service` (the `success` argument) and, only on
success, update the replica cache and stamp `last_scaling_actions` with
`now`. -/
def execute_scaling_action (s : AutoScalerState) (name : String)
    (direction : ScalingDirection) (policy : ScalingPolicy) (success : Bool)
    (now : ℚ) (serviceRunning : Bool) : AutoScalerState :=
  let current := get_current_replicas s name serviceRunning
  let newReplicas :=
    if direction = ScalingDirection.up then min (current + 1) policy.max_replicas
    else max (current - 1) policy.min_replicas
  if newReplicas = current then s
  else
    let event : ScalingEvent :=
      { service_name := name, direction := direction,
        from_replicas := current, to_replicas := newReplicas,
        timestamp := now, success := success }
    let s1 := { s with scaling_events := s.scaling_events ++ [event] }
    if success then
      { s1 with current_replicas := insertA s1.current_replicas name newReplicas,
                last_scaling_actions := insertA s1.last_scaling_actions name now }
    else s1

/-- `manual_scale`: run `_scale_service` (outcome `success`); on success
record a manual `ScalingEvent`, cache the target replica count and stamp
`last_scaling_actions`; on failure leave the state untouched. -/
def manual_scale (s : AutoScalerState) (name : String) (target : Int)
    (success : Bool) (now : ℚ) (serviceRunning : Bool) :
    Bool × AutoScalerState :=
  let current := get_current_replicas s name serviceRunning
  if success then
    let direction :=
      if target > current then ScalingDirection.up else ScalingDirection.down
    let event : ScalingEvent :=
      { service_name := name, direction := direction,
        from_replicas := current, to_replicas := target,
        timestamp := now, success := true }
    (true,
      { s with scaling_events := s.scaling_events ++ [event],
               current_replicas := insertA s.current_replicas name target,
               last_scaling_actions := insertA s.last_scaling_actions name now })
  else (false, s)

/-- The fields of a Docker stats sample read by `_get_service_metrics`. -/
structure ContainerStatsSample where
  cpu_total_usage : ℚ
  precpu_total_usage : ℚ
  system_cpu_usage : ℚ
  presystem_cpu_usage : ℚ
  memory_usage : ℚ
  memory_limit : ℚ
  network_rx_bytes : ℚ
  network_tx_bytes : ℚ
deriving DecidableEq, Repr

/-- CPU percentage derived by `_get_service_metrics`: guarded against a
non-positive system delta. -/
def cpu_percent_of (sample : ContainerStatsSample) : ℚ :=
  let cpu_delta := sample.cpu_total_usage - sample.precpu_total_usage
  let system_delta := sample.system_cpu_usage - sample.presystem_cpu_usage
  if system_delta > 0 then (cpu_delta / system_delta) * 100 else 0

/-- Memory percentage derived by `_get_service_metrics`: guarded against a
non-positive limit. -/
def memory_percent_of (sample : ContainerStatsSample) : ℚ :=
  if sample.memory_limit > 0 then
    (sample.memory_usage / sample.memory_limit) * 100
  else 0

/-- `_get_service_metrics` on a stats sample (application-level rates are
the placeholder zeros of the source). -/
def get_service_metrics (sample : ContainerStatsSample) : ScalingMetrics :=
  { cpu_percent := cpu_percent_of sample,
    memory_percent := memory_percent_of sample,
    network_in_mbps := sample.network_rx_bytes * 8 / (1024 * 1024) / 30,
    network_out_mbps := sample.network_tx_bytes * 8 / (1024 * 1024) / 30 }

end Scaler

/-! ## Service discovery (`service_discovery.py`) -/

namespace Discovery

/-- Service statuses of `ServiceStatus` in `service_discovery.py`. -/
inductive ServiceStatus where
  | running
  | stopped
  | starting
  | unhealthy
  | unknown
deriving DecidableEq, Repr

/-- The outcome of probing one endpoint's health URL: `some code` for an
HTTP response, `none` for a timeout or connection error. -/
def ProbeOutcome : Type := Option Nat

/-- The health-score accumulation of `_check_services_health`: one point
per endpoint whose probe returned status exactly 200, divided by the
endpoint count (0 when there are no endpoints). -/
def health_score_of (probes : List (Option Nat)) : ℚ :=
  let score : ℚ := ((probes.filter (fun r => r = some 200)).length : ℚ)
  if probes.length > 0 then score / (probes.length : ℚ) else 0

/-- The specification's health score (`health_score` = fraction returning
2xx), written from the spec's words for comparison with the source's
`health_score_of`. -/
def spec_health_score_2xx (probes : List (Option Nat)) : ℚ :=
  let score : ℚ :=
    ((probes.filter (fun r =>
        match r with
        | some c => 200 ≤ c ∧ c < 300
        | none => False)).length : ℚ)
  if probes.length > 0 then score / (probes.length : ℚ) else 0

/-- The status update of `_check_services_health`: `running` drops to
`unhealthy` exactly on score 0, `unhealthy` returns to `running` exactly
on positive score, all other statuses are left as they are. -/
def update_status (st : ServiceStatus) (score : ℚ) : ServiceStatus :=
  if score = 0 ∧ st = ServiceStatus.running then ServiceStatus.unhealthy
  else if score > 0 ∧ st = ServiceStatus.unhealthy then ServiceStatus.running
  else st

/-- One service's pass through `_check_services_health`: compute the score
from the endpoint probes, then update the status. -/
def check_service_health (st : ServiceStatus) (probes : List (Option Nat)) :
    ℚ × ServiceStatus :=
  let score := health_score_of probes
  (score, update_status st score)

end Discovery

/-! ## Auto-shutdown manager (`autoshutdown_manager.py`) -/

namespace Shutdown

/-- Conditions of `ShutdownCondition` in `autoshutdown_manager.py`. -/
inductive ShutdownCondition where
  | inactivity
  | schedule
  | low_resources
  | idle_time
  | custom
deriving DecidableEq, Repr

/-- The fields of `ShutdownRule` used by protection and condition
evaluation. -/
structure ShutdownRule where
  name : String
  enabled : Bool := true
  condition : ShutdownCondition
  inactivity_threshold : ℚ := 3600
  cpu_threshold : ℚ := 5
  memory_threshold : ℚ := 100
  network_threshold : Int := 1024
  protect_if_connected : Bool := true
  protect_if_uploading : Bool := true
  min_uptime : Int := 300
deriving Repr

/-- The `ContainerStats` model of `autoshutdown_manager.py`.
`seconds_since_activity` stands for `now - last_activity` in seconds. -/
structure ContainerStats where
  name : String
  cpu_percent : ℚ
  memory_usage : ℚ
  network_rx_bytes : Int
  network_tx_bytes : Int
  uptime : Int
  connections : Int
  seconds_since_activity : ℚ
  is_protected : Bool := false
deriving Repr

/-- `_is_container_protected`: explicit flag, short uptime, active
connections under `protect_if_connected`, or transmit traffic above ten
times the network threshold under `protect_if_uploading`. -/
def is_container_protected (rule : ShutdownRule) (stats : ContainerStats) :
    Bool :=
  if stats.is_protected then true
  else if stats.uptime < rule.min_uptime then true
  else if rule.protect_if_connected ∧ stats.connections > 0 then true
  else if rule.protect_if_uploading ∧
          stats.network_tx_bytes > rule.network_threshold * 10 then true
  else false

/-- `_check_inactivity_condition`. -/
def check_inactivity_condition (rule : ShutdownRule) (stats : ContainerStats) :
    Bool :=
  stats.seconds_since_activity ≥ rule.inactivity_threshold

/-- `_check_low_resources_condition`. -/
def check_low_resources_condition (rule : ShutdownRule)
    (stats : ContainerStats) : Bool :=
  stats.cpu_percent ≤ rule.cpu_threshold ∧
    stats.memory_usage ≤ rule.memory_threshold

/-- `_check_idle_time_condition`. -/
def check_idle_time_condition (rule : ShutdownRule) (stats : ContainerStats) :
    Bool :=
  stats.cpu_percent ≤ rule.cpu_threshold ∧
    stats.network_rx_bytes + stats.network_tx_bytes ≤ rule.network_threshold ∧
    stats.connections = 0

/-- The condition dispatch of `_should_shutdown_container` after the
protection gate (`scheduleMet` stands for `_check_schedule_condition`,
whose clock and cron reading are external inputs). -/
def check_condition (rule : ShutdownRule) (stats : ContainerStats)
    (scheduleMet : Bool) : Bool :=
  match rule.condition with
  | ShutdownCondition.inactivity => check_inactivity_condition rule stats
  | ShutdownCondition.schedule => scheduleMet
  | ShutdownCondition.low_resources => check_low_resources_condition rule stats
  | ShutdownCondition.idle_time => check_idle_time_condition rule stats
  | ShutdownCondition.custom => false

/-- `_should_shutdown_container` for a container whose stats are known:
protected containers are skipped before any condition is evaluated. -/
def should_shutdown_container (rule : ShutdownRule) (stats : ContainerStats)
    (scheduleMet : Bool) : Bool :=
  if is_container_protected rule stats then false
  else check_condition rule stats scheduleMet

end Shutdown

/-! ## Plugin manager hook bus (`plugin_manager.py`) -/

namespace Plugins

/-- One entry of the list returned by `trigger_hook`: the subscriber's
return value, or the error dict built from a raised exception. -/
inductive HookResult (β : Type) where
  | value (v : β)
  | errorEntry (msg : String)
deriving DecidableEq, Repr

/-- A subscriber callback: returns normally or raises (modelled as
`Except`). -/
def Callback (α β : Type) : Type := α → Except String β

/-- Hook registration in `_activate_plugin`: append the callback at the
tail of the hook point's list, creating the list on first use. -/
def register_hook {α β : Type} (hooks : List (String × List (Callback α β)))
    (hook_type : String) (cb : Callback α β) :
    List (String × List (Callback α β)) :=
  match lookupA hooks hook_type with
  | some existing => insertA hooks hook_type (existing ++ [cb])
  | none => hooks ++ [(hook_type, [cb])]

/-- The loop body of `trigger_hook` over the callback list: invoke each
callback in turn; a normal return appends its value, a raised exception is
caught and appended as an error entry, and iteration continues. -/
def run_callbacks {α β : Type} (arg : α) : List (Callback α β) →
    List (HookResult β)
  | [] => []
  | cb :: rest =>
    match cb arg with
    | Except.ok v => HookResult.value v :: run_callbacks arg rest
    | Except.error e => HookResult.errorEntry e :: run_callbacks arg rest

/-- `trigger_hook`: run the subscribers registered for the hook point in
list order; an unregistered hook point yields the empty result list. -/
def trigger_hook {α β : Type} (hooks : List (String × List (Callback α β)))
    (hook_type : String) (arg : α) : List (HookResult β) :=
  match lookupA hooks hook_type with
  | some cbs => run_callbacks arg cbs
  | none => []

end Plugins

/-! ## Concrete inputs used by witnesses and counterexamples -/

namespace Fixtures

open Proxy Orchestrator Scaler Discovery Shutdown

/-- A healthy backend with no recorded requests. -/
def b_ok : Backend := { host := "10.0.0.1", port := 8080 }

/-- A backend placed in maintenance. -/
def b_maint : Backend :=
  { host := "10.0.0.2", port := 8080, status := BackendStatus.maintenance }

/-- A proxy target holding a healthy and a maintenance backend. -/
def t_app : ProxyTarget :=
  { name := "app", backends := [b_ok, b_maint] }

/-- A freshly added backend: no successes, no errors. -/
def b_fresh : Backend := { host := "10.0.0.3", port := 9000 }

/-- A backend with five successes and five errors (ratio one half). -/
def b_seasoned : Backend :=
  { host := "10.0.0.4", port := 9001, success_count := 5, error_count := 5 }

/-- A health-based target listing the fresh backend first. -/
def t_pool : ProxyTarget :=
  { name := "pool", backends := [b_fresh, b_seasoned],
    rule := ProxyRule.health_based }

/-- A container configuration that depends on itself. -/
def cfgA : ContainerConfig :=
  { name := "A", image := "img", dependencies := ["A"] }

/-- The orchestrator state right after registering the self-cyclic
configuration. -/
def s_cyc : OrchestratorState := Orchestrator.register_container {} cfgA

/-- A dependency-free container configuration. -/
def cfgB : ContainerConfig := { name := "b", image := "img" }

/-- A placeholder startup-queue entry. -/
def qItem : String × ContainerConfig := ("x", { name := "x", image := "im" })

/-- An orchestrator state whose startup queue already holds ten waiting
entries. -/
def s_busy : OrchestratorState :=
  { containers := [("b", initStatus "b")], configs := [("b", cfgB)],
    startup_queue := List.replicate 10 qItem }

/-- A running managed container. -/
def st_run : ContainerStatus :=
  { name := "c", state := ContainerState.running, container_id := some "cid" }

/-- A configuration with a health check attached. -/
def cfgC : ContainerConfig :=
  { name := "c", image := "img", has_health_check := true }

/-- An unhealthy managed container. -/
def st_unh : ContainerStatus :=
  { name := "u", state := ContainerState.unhealthy,
    container_id := some "cid2" }

/-- An orchestrator state holding one unhealthy container. -/
def s_unh : OrchestratorState :=
  { containers := [("u", st_unh)], configs := [("u", cfgC)] }

/-- An auto-scaler state whose service has an action stamped at time 0. -/
def s_scaler : AutoScalerState := { last_scaling_actions := [("svc", 0)] }

/-- A scaling policy with the source's defaults. -/
def pol_default : ScalingPolicy := { service_name := "svc" }

/-- An inactivity shutdown rule with the source's defaults. -/
def rule_inact : ShutdownRule :=
  { name := "r", condition := ShutdownCondition.inactivity }

/-- Stats of a protected container: one active connection. -/
def stats_conn : ContainerStats :=
  { name := "c1", cpu_percent := 1, memory_usage := 50,
    network_rx_bytes := 0, network_tx_bytes := 0, uptime := 900,
    connections := 1, seconds_since_activity := 90 }

/-- A stats sample whose system CPU delta is zero and whose memory limit
is zero. -/
def sample_degenerate : ContainerStatsSample :=
  { cpu_total_usage := 50, precpu_total_usage := 40,
    system_cpu_usage := 1000, presystem_cpu_usage := 1000,
    memory_usage := 100, memory_limit := 0,
    network_rx_bytes := 0, network_tx_bytes := 0 }

end Fixtures

/-! ## Shared lemmas -/

theorem lookupA_insertA_self {α : Type} (l : List (String × α)) (k : String)
    (v : α) : lookupA (insertA l k v) k = some v := by
  induction l with
  | nil => simp [insertA, lookupA]
  | cons hd tl ih =>
    obtain ⟨k0, w⟩ := hd
    by_cases h : k0 = k
    · simp [insertA, lookupA, h]
    · simp [insertA, lookupA, h, ih]

theorem lookupA_append_single_self {α : Type} (l : List (String × α))
    (k : String) (v : α) (h : lookupA l k = none) :
    lookupA (l ++ [(k, v)]) k = some v := by
  induction l with
  | nil => simp [lookupA]
  | cons hd tl ih =>
    obtain ⟨k0, w⟩ := hd
    by_cases hk : k0 = k
    · simp [lookupA, hk] at h
    · simp only [lookupA, hk, if_false, List.cons_append] at h ⊢
      exact ih h

namespace Proxy

theorem pyMaxBy_mem (k : Backend → ℚ) (b : Backend) (l : List Backend) :
    pyMaxBy k b l ∈ b :: l := by
  induction l generalizing b with
  | nil => simp [pyMaxBy]
  | cons c cs ih =>
    rw [pyMaxBy]
    split
    · rcases List.mem_cons.mp (ih c) with h | h
      · rw [h]; exact List.mem_cons_of_mem _ (List.mem_cons_self _ _)
      · exact List.mem_cons_of_mem _ (List.mem_cons_of_mem _ h)
    · rcases List.mem_cons.mp (ih b) with h | h
      · rw [h]; exact List.mem_cons_self _ _
      · exact List.mem_cons_of_mem _ (List.mem_cons_of_mem _ h)

theorem pyMinBy_mem (k : Backend → ℚ) (b : Backend) (l : List Backend) :
    pyMinBy k b l ∈ b :: l := by
  induction l generalizing b with
  | nil => simp [pyMinBy]
  | cons c cs ih =>
    rw [pyMinBy]
    split
    · rcases List.mem_cons.mp (ih c) with h | h
      · rw [h]; exact List.mem_cons_of_mem _ (List.mem_cons_self _ _)
      · exact List.mem_cons_of_mem _ (List.mem_cons_of_mem _ h)
    · rcases List.mem_cons.mp (ih b) with h | h
      · rw [h]; exact List.mem_cons_self _ _
      · exact List.mem_cons_of_mem _ (List.mem_cons_of_mem _ h)

theorem weightedLoop_mem (r : Int) (b : Backend) (l : List Backend) :
    weightedLoop r b l ∈ b :: l := by
  induction l generalizing r b with
  | nil => rw [weightedLoop]; split <;> simp
  | cons c cs ih =>
    rw [weightedLoop]
    split
    · exact List.mem_cons_self _ _
    · rcases List.mem_cons.mp (ih (r - b.weight) c) with h | h
      · rw [h]; exact List.mem_cons_of_mem _ (List.mem_cons_self _ _)
      · exact List.mem_cons_of_mem _ (List.mem_cons_of_mem _ h)

theorem getD_cons_mem (b0 : Backend) (rest : List Backend) (n : Nat) :
    (b0 :: rest).getD n b0 ∈ b0 :: rest := by
  rcases Nat.lt_or_ge n (b0 :: rest).length with h | h
  · rw [List.getD_eq_getElem _ _ h]
    exact List.getElem_mem h
  · rw [List.getD_eq_default _ _ h]
    exact List.mem_cons_self _ _

theorem weighted_select_mem (b0 : Backend) (rest : List Backend) (r : Int) :
    weighted_select b0 rest r ∈ b0 :: rest := by
  rw [weighted_select]
  split
  · exact List.mem_cons_self _ _
  · exact weightedLoop_mem _ _ _

theorem ip_hash_select_mem (b0 : Backend) (rest : List Backend)
    (clientIp : Option String) (hashVal : Nat) :
    ip_hash_select b0 rest clientIp hashVal ∈ b0 :: rest := by
  unfold ip_hash_select
  cases clientIp with
  | none => exact List.mem_cons_self _ _
  | some ip => exact getD_cons_mem _ _ _

theorem mem_healthy_status (t : ProxyTarget) (b : Backend)
    (h : b ∈ t.get_healthy_backends) : b.status = BackendStatus.healthy := by
  have h2 := List.of_mem_filter h
  simpa using h2

theorem sticky_lookup_mem (t : ProxyTarget) (sessionUrl : Option String)
    (l : List Backend) (b : Backend)
    (h : sticky_lookup t sessionUrl l = some b) : b ∈ l := by
  unfold sticky_lookup at h
  by_cases hs : t.sticky_sessions = true
  · rw [if_pos hs] at h
    cases su : sessionUrl with
    | none => rw [su] at h; exact absurd h (by simp)
    | some u =>
      rw [su] at h
      exact List.mem_of_find?_eq_some h
  · rw [if_neg hs] at h
    exact absurd h (by simp)

theorem dispatch_rule_mem (t : ProxyTarget) (b0 : Backend)
    (rest : List Backend) (rrIdx : Nat) (randVal : Int) (hashVal : Nat)
    (clientIp : Option String) :
    dispatch_rule t b0 rest rrIdx randVal hashVal clientIp ∈ b0 :: rest := by
  unfold dispatch_rule
  cases t.rule
  · exact getD_cons_mem _ _ _
  · exact pyMinBy_mem _ _ _
  · exact weighted_select_mem _ _ _
  · exact ip_hash_select_mem _ _ _ _
  · exact pyMaxBy_mem _ _ _

theorem select_from_mem (t : ProxyTarget) (sessionUrl : Option String)
    (rrIdx : Nat) (randVal : Int) (hashVal : Nat) (clientIp : Option String)
    (l : List Backend) (b : Backend)
    (hsel : select_from t sessionUrl rrIdx randVal hashVal clientIp l = some b) :
    b ∈ l := by
  cases l with
  | nil => rw [select_from] at hsel; exact absurd hsel (by simp)
  | cons b0 rest =>
    rw [select_from] at hsel
    cases hst : sticky_lookup t sessionUrl (b0 :: rest) with
    | none =>
      rw [hst] at hsel
      simp only [Option.some.injEq] at hsel
      rw [← hsel]
      exact dispatch_rule_mem _ _ _ _ _ _ _
    | some bs =>
      rw [hst] at hsel
      simp only [Option.some.injEq] at hsel
      rw [← hsel]
      exact sticky_lookup_mem _ _ _ _ hst

theorem select_backend_mem_healthy (t : ProxyTarget)
    (sessionUrl : Option String) (rrIdx : Nat) (randVal : Int) (hashVal : Nat)
    (clientIp : Option String) (b : Backend)
    (hsel : select_backend t sessionUrl rrIdx randVal hashVal clientIp = some b) :
    b ∈ t.get_healthy_backends :=
  select_from_mem t sessionUrl rrIdx randVal hashVal clientIp
    t.get_healthy_backends b hsel

theorem health_ratio_le_one (c : Backend) : c.health_ratio ≤ 1 := by
  rw [Backend.health_ratio]
  split
  · rename_i h
    rw [div_le_one (by exact_mod_cast h)]
    exact_mod_cast Nat.le_add_right c.success_count c.error_count
  · exact le_refl 1

theorem pyMaxBy_head_of_le (k : Backend → ℚ) (b : Backend) (l : List Backend)
    (h : ∀ c ∈ l, k c ≤ k b) : pyMaxBy k b l = b := by
  induction l with
  | nil => rfl
  | cons c cs ih =>
    rw [pyMaxBy, if_neg (not_lt.mpr (h c (List.mem_cons_self _ _)))]
    exact ih (fun d hd => h d (List.mem_cons_of_mem _ hd))

end Proxy

/-! ## Claim C1 -/

/-- C1 counterexample: a backend in `maintenance` is probed like any other
backend, and a passing probe (HTTP 200) moves it out of maintenance to
`healthy`, contradicting the claim that the periodic active health check
does not change a maintenance backend's status. -/
theorem maintenance_lost_on_passing_probe :
    Fixtures.b_maint.status = Proxy.BackendStatus.maintenance ∧
    (Proxy.check_backend_health Fixtures.b_maint (some 200) 5).status =
      Proxy.BackendStatus.healthy ∧
    (Proxy.check_backend_health Fixtures.b_maint (some 200) 5).status ≠
      Proxy.BackendStatus.maintenance :=
  ⟨rfl, rfl, by decide⟩

/-- C1 (amended): a backend in `maintenance` is indeed never returned by
backend selection for any request under any policy — every selected
backend has status `healthy` — but the periodic active health check does
not leave it alone: probe eligibility ignores the backend's status, and
the probe overwrites the status from the probe outcome alone, so a passing
probe moves a maintenance backend to `healthy` and any other outcome moves
it to `unhealthy`. -/
theorem maintenance_never_selected_yet_probe_overwrites
    (t : Proxy.ProxyTarget) (sessionUrl : Option String) (rrIdx : Nat)
    (randVal : Int) (hashVal : Nat) (clientIp : Option String)
    (b bm : Proxy.Backend) (probe : Option Nat) (now : ℚ)
    (hsel : Proxy.select_backend t sessionUrl rrIdx randVal hashVal clientIp =
      some b) :
    (b.status = Proxy.BackendStatus.healthy ∧
      b.status ≠ Proxy.BackendStatus.maintenance) ∧
    (Proxy.check_backend_health bm probe now).status =
      (if probe = some 200 then Proxy.BackendStatus.healthy
       else Proxy.BackendStatus.unhealthy) ∧
    Proxy.probe_due t bm now =
      Proxy.probe_due t { bm with status := Proxy.BackendStatus.maintenance }
        now := by
  refine ⟨?_, ?_, rfl⟩
  · have hmem := Proxy.select_backend_mem_healthy t sessionUrl rrIdx randVal
      hashVal clientIp b hsel
    have hh := Proxy.mem_healthy_status t b hmem
    exact ⟨hh, by rw [hh]; decide⟩
  · unfold Proxy.check_backend_health
    cases probe with
    | none => simp
    | some st =>
      by_cases h : st = 200
      · subst h; simp
      · simp [h]

/-- C1 witness: the amended theorem applied to a concrete target holding a
healthy and a maintenance backend, with a round-robin selection that picks
the healthy one and a passing probe aimed at the maintenance one. -/
theorem maintenance_never_selected_yet_probe_overwrites_witness :
    (Fixtures.b_ok.status = Proxy.BackendStatus.healthy ∧
      Fixtures.b_ok.status ≠ Proxy.BackendStatus.maintenance) ∧
    (Proxy.check_backend_health Fixtures.b_maint (some 200) 7).status =
      (if (some 200 : Option Nat) = some 200 then Proxy.BackendStatus.healthy
       else Proxy.BackendStatus.unhealthy) ∧
    Proxy.probe_due Fixtures.t_app Fixtures.b_maint 7 =
      Proxy.probe_due Fixtures.t_app
        { Fixtures.b_maint with status := Proxy.BackendStatus.maintenance }
        7 :=
  maintenance_never_selected_yet_probe_overwrites Fixtures.t_app none 0 1 0
    none Fixtures.b_ok Fixtures.b_maint (some 200) 7 rfl

/-! ## Claim C9 -/

/-- C9: a `Backend` with `success_count = 0` and `error_count = 0` has
`health_ratio` exactly 1 — not 0 and not an error; no ratio ever exceeds
1, so under the `health_based` policy such a freshly added (healthy)
backend compares as maximally healthy and is returned as the argmax when
it heads the backend list. -/
theorem fresh_backend_health_ratio_one (b : Proxy.Backend)
    (hs : b.success_count = 0) (he : b.error_count = 0)
    (hst : b.status = Proxy.BackendStatus.healthy) :
    b.health_ratio = 1 ∧
    (∀ c : Proxy.Backend, c.health_ratio ≤ 1) ∧
    (∀ rest : List Proxy.Backend,
      Proxy.select_backend
        { name := "pool", backends := b :: rest,
          rule := Proxy.ProxyRule.health_based } none 0 0 0 none = some b) := by
  have hratio : b.health_ratio = 1 := by
    rw [Proxy.Backend.health_ratio, hs, he]
    norm_num
  refine ⟨hratio, Proxy.health_ratio_le_one, ?_⟩
  intro rest
  rw [Proxy.select_backend]
  have hfilter :
      ({ name := "pool", backends := b :: rest,
         rule := Proxy.ProxyRule.health_based } :
        Proxy.ProxyTarget).get_healthy_backends =
      b :: rest.filter (fun c => c.status = Proxy.BackendStatus.healthy) := by
    rw [Proxy.ProxyTarget.get_healthy_backends]
    simp [List.filter_cons, hst]
  rw [hfilter, Proxy.select_from]
  have hsticky :
      Proxy.sticky_lookup
        { name := "pool", backends := b :: rest,
          rule := Proxy.ProxyRule.health_based } none
        (b :: rest.filter (fun c => c.status = Proxy.BackendStatus.healthy)) =
      none := rfl
  rw [hsticky]
  have hmax :
      Proxy.pyMaxBy Proxy.Backend.health_ratio b
        (rest.filter (fun c => c.status = Proxy.BackendStatus.healthy)) = b := by
    apply Proxy.pyMaxBy_head_of_le
    intro c _
    rw [hratio]
    exact Proxy.health_ratio_le_one c
  simp only [Proxy.dispatch_rule, hmax]

/-- C9 witness: the fresh backend heads a health-based pool together with
a backend of ratio one half, and selection returns the fresh one. -/
theorem fresh_backend_health_ratio_one_witness :
    Fixtures.b_fresh.health_ratio = 1 ∧
    Fixtures.b_seasoned.health_ratio ≤ 1 ∧
    Proxy.select_backend
      { name := "pool", backends := [Fixtures.b_fresh, Fixtures.b_seasoned],
        rule := Proxy.ProxyRule.health_based } none 0 0 0 none =
      some Fixtures.b_fresh := by
  have h := fresh_backend_health_ratio_one Fixtures.b_fresh rfl rfl rfl
  exact ⟨h.1, h.2.1 Fixtures.b_seasoned, h.2.2 [Fixtures.b_seasoned]⟩

/-! ## Claim C3 -/

/-- C3 counterexample: a configuration that depends on itself — a
dependency cycle — is accepted by `register_container` without any
validation error: the config is stored and a status is initialised, while
the registered configuration set provably contains a cycle. -/
theorem cyclic_config_registered_without_error :
    Orchestrator.has_dependency_cycle Fixtures.s_cyc.configs = true ∧
    lookupA Fixtures.s_cyc.configs "A" = some Fixtures.cfgA ∧
    lookupA Fixtures.s_cyc.containers "A" =
      some (Orchestrator.initStatus "A") := by
  refine ⟨by decide, rfl, rfl⟩

/-- C3 (amended): registration performs no dependency validation — any
configuration, cyclic or not, is stored and reported registered — so
cycles are not rejected at `Register`; for the registered self-cycle, a
`Start` still does not enqueue the container, but only because the
dependency wait times out at start time (the container ends in `error`
with an empty startup queue). -/
theorem register_accepts_cycles_start_times_out
    (s : Orchestrator.OrchestratorState) (cfg : Orchestrator.ContainerConfig) :
    lookupA (Orchestrator.register_container s cfg).configs cfg.name =
      some cfg ∧
    (Orchestrator.start_container 4 Fixtures.s_cyc "A" false).1 = false ∧
    (Orchestrator.start_container 4 Fixtures.s_cyc "A" false).2.startup_queue =
      [] ∧
    Orchestrator.stateOf
      (Orchestrator.start_container 4 Fixtures.s_cyc "A" false).2 "A" =
      some Orchestrator.ContainerState.error := by
  refine ⟨lookupA_insertA_self s.configs cfg.name cfg, ?_, ?_, ?_⟩ <;> decide

/-! ## Claim C4 -/

/-- C4 counterexample: the startup queue is created with the `asyncio`
default capacity 0, meaning unbounded; with ten intents already waiting, a
new `Start` call is still accepted and its intent appended — it is not
rejected with a transient error. -/
theorem full_queue_start_still_accepted :
    Fixtures.s_busy.queue_maxsize = 0 ∧
    Fixtures.s_busy.startup_queue.length = 10 ∧
    (Orchestrator.start_container 2 Fixtures.s_busy "b" false).1 = true ∧
    (Orchestrator.start_container 2 Fixtures.s_busy "b" false).2.startup_queue.length
      = 11 := by
  refine ⟨rfl, by decide, by decide, by decide⟩

/-- C4 (amended): the startup queue is an unbounded FIFO: starting a
registered, stopped, dependency-free container always succeeds and appends
the intent at the queue's tail whatever the queue already holds, and
workers consume intents from the head; no `Start` call is ever rejected
for queue occupancy. -/
theorem startup_queue_unbounded_fifo (s : Orchestrator.OrchestratorState)
    (name : String) (cfg : Orchestrator.ContainerConfig)
    (st : Orchestrator.ContainerStatus) (force : Bool) (fuel : Nat)
    (hc : lookupA s.configs name = some cfg)
    (hs : lookupA s.containers name = some st)
    (hstate : st.state = Orchestrator.ContainerState.stopped)
    (hdeps : cfg.dependencies = []) :
    (Orchestrator.start_container (fuel + 1) s name force).1 = true ∧
    (Orchestrator.start_container (fuel + 1) s name force).2.startup_queue =
      s.startup_queue ++ [(name, cfg)] ∧
    (∀ (it : String × Orchestrator.ContainerConfig)
       (q : List (String × Orchestrator.ContainerConfig)),
      Orchestrator.dequeue { s with startup_queue := it :: q } =
        some (it, { s with startup_queue := q })) := by
  have key : Orchestrator.start_container (fuel + 1) s name force =
      (true, Orchestrator.enqueue
        (Orchestrator.setState s name Orchestrator.ContainerState.starting)
        name cfg) := by
    simp only [Orchestrator.start_container, hc, hs, hstate]
    simp [hdeps]
  refine ⟨by rw [key], by rw [key]; rfl, fun it q => rfl⟩

/-- C4 witness: the amended theorem applied to the ten-deep queue state. -/
theorem startup_queue_unbounded_fifo_witness :
    (Orchestrator.start_container 1 Fixtures.s_busy "b" false).1 = true ∧
    (Orchestrator.start_container 1 Fixtures.s_busy "b" false).2.startup_queue =
      Fixtures.s_busy.startup_queue ++ [("b", Fixtures.cfgB)] ∧
    (∀ (it : String × Orchestrator.ContainerConfig)
       (q : List (String × Orchestrator.ContainerConfig)),
      Orchestrator.dequeue { Fixtures.s_busy with startup_queue := it :: q } =
        some (it, { Fixtures.s_busy with startup_queue := q })) :=
  startup_queue_unbounded_fifo Fixtures.s_busy "b" Fixtures.cfgB
    (Orchestrator.initStatus "b") false 0 rfl rfl rfl rfl

/-! ## Claim C5 -/

/-- C5 counterexample: a single health-check failure — not two — moves a
running managed container to `unhealthy`. -/
theorem single_failure_marks_unhealthy :
    Fixtures.st_run.state = Orchestrator.ContainerState.running ∧
    (Orchestrator.perform_health_check Fixtures.st_run (some Fixtures.cfgC)
        (some "running") false 3).state =
      Orchestrator.ContainerState.unhealthy := by
  exact ⟨rfl, by decide⟩

/-- C5 (amended): one health-check failure moves a running container to
`unhealthy`; no number of subsequent successes restores `running`: a
successful check never writes the state field at all, and the health loop
re-checks only containers whose state is `running`, so an `unhealthy`
container is left untouched by further loop iterations. -/
theorem one_failure_unhealthy_never_restored
    (st : Orchestrator.ContainerStatus) (cfg : Orchestrator.ContainerConfig)
    (now : ℚ) (s : Orchestrator.OrchestratorState) (nm : String)
    (stU : Orchestrator.ContainerStatus) (rs : String → Option String)
    (ho : String → Bool) (now2 : ℚ)
    (_h1 : st.state = Orchestrator.ContainerState.running)
    (h2 : cfg.has_health_check = true)
    (hmem : (nm, stU) ∈ s.containers)
    (hU : stU.state = Orchestrator.ContainerState.unhealthy) :
    (Orchestrator.perform_health_check st (some cfg) (some "running") false
        now).state = Orchestrator.ContainerState.unhealthy ∧
    (∀ (st2 : Orchestrator.ContainerStatus)
       (cfg2 : Orchestrator.ContainerConfig) (now3 : ℚ),
      (Orchestrator.perform_health_check st2 (some cfg2) (some "running") true
          now3).state = st2.state) ∧
    (nm, stU) ∈ (Orchestrator.health_loop_step s rs ho now2).containers := by
  refine ⟨?_, ?_, ?_⟩
  · simp [Orchestrator.perform_health_check, h2]
  · intro st2 cfg2 now3
    by_cases hhc : cfg2.has_health_check
    · simp [Orchestrator.perform_health_check, hhc]
    · simp [Orchestrator.perform_health_check, hhc]
  · have hg :
        (fun p : String × Orchestrator.ContainerStatus =>
          if p.2.state = Orchestrator.ContainerState.running ∧
              p.2.container_id.isSome then
            (p.1, Orchestrator.perform_health_check p.2 (lookupA s.configs p.1)
              (rs p.1) (ho p.1) now2)
          else p) (nm, stU) = (nm, stU) := by
      simp [hU]
    have hmm := List.mem_map_of_mem
      (fun p : String × Orchestrator.ContainerStatus =>
        if p.2.state = Orchestrator.ContainerState.running ∧
            p.2.container_id.isSome then
          (p.1, Orchestrator.perform_health_check p.2 (lookupA s.configs p.1)
            (rs p.1) (ho p.1) now2)
        else p) hmem
    rw [hg] at hmm
    exact hmm

/-- C5 witness: the amended theorem at a running container with a failing
check and an unhealthy container sitting in the orchestrator's map. -/
theorem one_failure_unhealthy_never_restored_witness :
    (Orchestrator.perform_health_check Fixtures.st_run (some Fixtures.cfgC)
        (some "running") false 9).state =
      Orchestrator.ContainerState.unhealthy ∧
    (∀ (st2 : Orchestrator.ContainerStatus)
       (cfg2 : Orchestrator.ContainerConfig) (now3 : ℚ),
      (Orchestrator.perform_health_check st2 (some cfg2) (some "running") true
          now3).state = st2.state) ∧
    ("u", Fixtures.st_unh) ∈
      (Orchestrator.health_loop_step Fixtures.s_unh (fun _ => some "running")
          (fun _ => true) 9).containers :=
  one_failure_unhealthy_never_restored Fixtures.st_run Fixtures.cfgC 9
    Fixtures.s_unh "u" Fixtures.st_unh (fun _ => some "running")
    (fun _ => true) 9 rfl rfl (by decide) rfl

/-! ## Claim C2 -/

/-- C2: scaling cooldown and stamping.  While the last action's stamp `t`
is less than `min(scale_up_cooldown, scale_down_cooldown)` old, the
decision for the service is `NONE` whatever the metrics say; a failed
automatic action leaves `last_scaling_actions` untouched; a successful
automatic action (one that changes the replica count) stamps it with the
action time; a failed manual scale leaves it untouched and a successful
one stamps it. -/
theorem cooldown_blocks_decisions_stamp_only_on_success
    (s : Scaler.AutoScalerState) (name : String)
    (policy : Scaler.ScalingPolicy) (now t now2 now3 : ℚ)
    (serviceRunning sr2 : Bool) (direction : Scaler.ScalingDirection)
    (tgt : Int)
    (hlast : lookupA s.last_scaling_actions name = some t)
    (hbefore : now <
      t + min policy.scale_up_cooldown policy.scale_down_cooldown) :
    Scaler.make_scaling_decision s name policy now serviceRunning =
      Scaler.ScalingDirection.none ∧
    (Scaler.execute_scaling_action s name direction policy false now2
        sr2).last_scaling_actions = s.last_scaling_actions ∧
    ((if direction = Scaler.ScalingDirection.up then
        min (Scaler.get_current_replicas s name sr2 + 1) policy.max_replicas
      else
        max (Scaler.get_current_replicas s name sr2 - 1) policy.min_replicas)
        ≠ Scaler.get_current_replicas s name sr2 →
      lookupA (Scaler.execute_scaling_action s name direction policy true now2
          sr2).last_scaling_actions name = some now2) ∧
    (Scaler.manual_scale s name tgt false now3 sr2).2.last_scaling_actions =
      s.last_scaling_actions ∧
    lookupA (Scaler.manual_scale s name tgt true now3
        sr2).2.last_scaling_actions name = some now3 := by
  refine ⟨?_, ?_, ?_, rfl, ?_⟩
  · have hcool : ¬ (now - t ≥
        min policy.scale_up_cooldown policy.scale_down_cooldown) := by
      intro hge
      linarith
    simp [Scaler.make_scaling_decision, Scaler.is_cooldown_expired, hlast,
      hcool]
  · simp only [Scaler.execute_scaling_action]
    split <;> (try split) <;> (try split) <;> simp_all
  · intro hne
    simp only [Scaler.execute_scaling_action]
    rw [if_neg hne]
    exact lookupA_insertA_self _ _ _
  · unfold Scaler.manual_scale
    exact lookupA_insertA_self _ _ _

/-- C2 witness: a service stamped at time 0, default cooldowns (minimum
300s), evaluated at time 100. -/
theorem cooldown_blocks_decisions_stamp_only_on_success_witness :
    Scaler.make_scaling_decision Fixtures.s_scaler "svc" Fixtures.pol_default
        100 true = Scaler.ScalingDirection.none ∧
    (Scaler.execute_scaling_action Fixtures.s_scaler "svc"
        Scaler.ScalingDirection.up Fixtures.pol_default false 5
        true).last_scaling_actions = Fixtures.s_scaler.last_scaling_actions ∧
    ((if Scaler.ScalingDirection.up = Scaler.ScalingDirection.up then
        min (Scaler.get_current_replicas Fixtures.s_scaler "svc" true + 1)
          Fixtures.pol_default.max_replicas
      else
        max (Scaler.get_current_replicas Fixtures.s_scaler "svc" true - 1)
          Fixtures.pol_default.min_replicas)
        ≠ Scaler.get_current_replicas Fixtures.s_scaler "svc" true →
      lookupA (Scaler.execute_scaling_action Fixtures.s_scaler "svc"
          Scaler.ScalingDirection.up Fixtures.pol_default true 5
          true).last_scaling_actions "svc" = some 5) ∧
    (Scaler.manual_scale Fixtures.s_scaler "svc" 3 false 6
        true).2.last_scaling_actions =
      Fixtures.s_scaler.last_scaling_actions ∧
    lookupA (Scaler.manual_scale Fixtures.s_scaler "svc" 3 true 6
        true).2.last_scaling_actions "svc" = some 6 :=
  cooldown_blocks_decisions_stamp_only_on_success Fixtures.s_scaler "svc"
    Fixtures.pol_default 100 0 5 6 true true Scaler.ScalingDirection.up 3
    rfl (by norm_num [Fixtures.pol_default])

/-! ## Claim C10 -/

/-- C10: metric derivation is total with respect to its divisions — a
non-positive system CPU delta yields `cpu_percent = 0`, a non-positive
memory limit yields `memory_percent = 0`, the CPU and memory quotients are
only formed when their denominators are strictly positive, and the network
rates divide by fixed nonzero constants. -/
theorem metric_derivation_total (sample : Scaler.ContainerStatsSample) :
    (sample.system_cpu_usage - sample.presystem_cpu_usage ≤ 0 →
      (Scaler.get_service_metrics sample).cpu_percent = 0) ∧
    (sample.memory_limit ≤ 0 →
      (Scaler.get_service_metrics sample).memory_percent = 0) ∧
    (0 < sample.system_cpu_usage - sample.presystem_cpu_usage →
      (Scaler.get_service_metrics sample).cpu_percent =
        (sample.cpu_total_usage - sample.precpu_total_usage) /
          (sample.system_cpu_usage - sample.presystem_cpu_usage) * 100) ∧
    (0 < sample.memory_limit →
      (Scaler.get_service_metrics sample).memory_percent =
        sample.memory_usage / sample.memory_limit * 100) ∧
    (Scaler.get_service_metrics sample).network_in_mbps =
      sample.network_rx_bytes * 8 / (1024 * 1024) / 30 := by
  refine ⟨?_, ?_, ?_, ?_, rfl⟩
  · intro h
    simp [Scaler.get_service_metrics, Scaler.cpu_percent_of, not_lt.mpr h]
  · intro h
    simp [Scaler.get_service_metrics, Scaler.memory_percent_of, not_lt.mpr h]
  · intro h
    simp [Scaler.get_service_metrics, Scaler.cpu_percent_of, h]
  · intro h
    simp [Scaler.get_service_metrics, Scaler.memory_percent_of, h]

/-- C10 witness: a stats sample with zero system CPU delta and zero memory
limit derives zero percentages. -/
theorem metric_derivation_total_witness :
    (Fixtures.sample_degenerate.system_cpu_usage -
        Fixtures.sample_degenerate.presystem_cpu_usage ≤ 0 →
      (Scaler.get_service_metrics Fixtures.sample_degenerate).cpu_percent =
        0) ∧
    (Fixtures.sample_degenerate.memory_limit ≤ 0 →
      (Scaler.get_service_metrics Fixtures.sample_degenerate).memory_percent =
        0) ∧
    (0 < Fixtures.sample_degenerate.system_cpu_usage -
        Fixtures.sample_degenerate.presystem_cpu_usage →
      (Scaler.get_service_metrics Fixtures.sample_degenerate).cpu_percent =
        (Fixtures.sample_degenerate.cpu_total_usage -
            Fixtures.sample_degenerate.precpu_total_usage) /
          (Fixtures.sample_degenerate.system_cpu_usage -
            Fixtures.sample_degenerate.presystem_cpu_usage) * 100) ∧
    (0 < Fixtures.sample_degenerate.memory_limit →
      (Scaler.get_service_metrics Fixtures.sample_degenerate).memory_percent =
        Fixtures.sample_degenerate.memory_usage /
          Fixtures.sample_degenerate.memory_limit * 100) ∧
    (Scaler.get_service_metrics Fixtures.sample_degenerate).network_in_mbps =
      Fixtures.sample_degenerate.network_rx_bytes * 8 / (1024 * 1024) / 30 :=
  metric_derivation_total Fixtures.sample_degenerate

/-! ## Claim C6 -/

/-- C6 counterexample: a probe answered with HTTP 204 — a 2xx status — is
not counted by the health loop: the computed score is 0 where the claimed
2xx fraction is 1, and a running service whose single endpoint returns 204
is marked unhealthy. -/
theorem health_score_rejects_other_2xx :
    Discovery.health_score_of [some 204] = 0 ∧
    Discovery.spec_health_score_2xx [some 204] = 1 ∧
    (Discovery.check_service_health Discovery.ServiceStatus.running
        [some 204]).2 = Discovery.ServiceStatus.unhealthy := by
  have h0 : Discovery.health_score_of [some 204] = 0 := by
    rw [Discovery.health_score_of]
    norm_num
  refine ⟨h0, ?_, ?_⟩
  · rw [Discovery.spec_health_score_2xx]
    norm_num
  · show Discovery.update_status _ _ = _
    rw [h0]
    rfl

/-- C6 (amended): `health_score` equals the fraction of the service's
endpoints whose probe returned exactly HTTP 200 (other 2xx statuses count
as failures); the status transition is `running → unhealthy` exactly when
the score is 0 and `unhealthy → running` exactly when the score is
positive, and a service in any other status keeps it. -/
theorem health_score_exact_200_and_transitions
    (st : Discovery.ServiceStatus) (probes : List (Option Nat))
    (hne : probes ≠ []) :
    (Discovery.check_service_health st probes).1 =
      ((probes.filter (fun r => r = some 200)).length : ℚ) /
        (probes.length : ℚ) ∧
    (st = Discovery.ServiceStatus.running →
      ((Discovery.check_service_health st probes).2 =
          Discovery.ServiceStatus.unhealthy ↔
        Discovery.health_score_of probes = 0)) ∧
    (st = Discovery.ServiceStatus.unhealthy →
      ((Discovery.check_service_health st probes).2 =
          Discovery.ServiceStatus.running ↔
        Discovery.health_score_of probes > 0)) ∧
    (st ≠ Discovery.ServiceStatus.running →
      st ≠ Discovery.ServiceStatus.unhealthy →
      (Discovery.check_service_health st probes).2 = st) := by
  have hlen : probes.length > 0 := List.length_pos.mpr hne
  refine ⟨?_, ?_, ?_, ?_⟩
  · show Discovery.health_score_of probes = _
    rw [Discovery.health_score_of, if_pos hlen]
  · intro hrun
    subst hrun
    show Discovery.update_status _ _ = _ ↔ _
    unfold Discovery.update_status
    by_cases hz : Discovery.health_score_of probes = 0
    · simp [hz]
    · simp [hz]
  · intro hunh
    subst hunh
    show Discovery.update_status _ _ = _ ↔ _
    unfold Discovery.update_status
    by_cases hp : Discovery.health_score_of probes > 0
    · simp [hp, ne_of_gt hp]
    · have hz : ¬ (Discovery.health_score_of probes = 0 ∧
          Discovery.ServiceStatus.unhealthy =
            Discovery.ServiceStatus.running) := by
        rintro ⟨-, h⟩
        exact absurd h (by decide)
      simp [hp, hz]
  · intro hr hu
    show Discovery.update_status _ _ = _
    unfold Discovery.update_status
    simp [hr, hu]

/-- C6 witness: two endpoints, one answering 200 and one timing out, on a
running service: score one half, status stays running. -/
theorem health_score_exact_200_and_transitions_witness :
    (Discovery.check_service_health Discovery.ServiceStatus.running
        [some 200, none]).1 =
      ((([some 200, none] : List (Option Nat)).filter
          (fun r => r = some 200)).length : ℚ) /
        (([some 200, none] : List (Option Nat)).length : ℚ) ∧
    (Discovery.ServiceStatus.running = Discovery.ServiceStatus.running →
      ((Discovery.check_service_health Discovery.ServiceStatus.running
          [some 200, none]).2 = Discovery.ServiceStatus.unhealthy ↔
        Discovery.health_score_of [some 200, none] = 0)) ∧
    (Discovery.ServiceStatus.running = Discovery.ServiceStatus.unhealthy →
      ((Discovery.check_service_health Discovery.ServiceStatus.running
          [some 200, none]).2 = Discovery.ServiceStatus.running ↔
        Discovery.health_score_of [some 200, none] > 0)) ∧
    (Discovery.ServiceStatus.running ≠ Discovery.ServiceStatus.running →
      Discovery.ServiceStatus.running ≠ Discovery.ServiceStatus.unhealthy →
      (Discovery.check_service_health Discovery.ServiceStatus.running
          [some 200, none]).2 = Discovery.ServiceStatus.running) :=
  health_score_exact_200_and_transitions Discovery.ServiceStatus.running
    [some 200, none] (by simp)

/-! ## Claim C7 -/

/-- C7: a targeted container is skipped by a shutdown rule — no condition
is evaluated — if and only if at least one protection holds: uptime below
`min_uptime`, active connections under `protect_if_connected`, transmit
traffic above `network_threshold × 10` under `protect_if_uploading`, or
the explicit `is_protected` flag; an unprotected container proceeds to the
rule's condition evaluation. -/
theorem protection_predicate_iff (rule : Shutdown.ShutdownRule)
    (stats : Shutdown.ContainerStats) (scheduleMet : Bool) :
    (Shutdown.is_container_protected rule stats = true ↔
      (stats.uptime < rule.min_uptime ∨
       (rule.protect_if_connected = true ∧ stats.connections > 0) ∨
       (rule.protect_if_uploading = true ∧
         stats.network_tx_bytes > rule.network_threshold * 10) ∨
       stats.is_protected = true)) ∧
    (Shutdown.is_container_protected rule stats = true →
      Shutdown.should_shutdown_container rule stats scheduleMet = false) ∧
    (Shutdown.is_container_protected rule stats = false →
      Shutdown.should_shutdown_container rule stats scheduleMet =
        Shutdown.check_condition rule stats scheduleMet) := by
  refine ⟨?_, ?_, ?_⟩
  · unfold Shutdown.is_container_protected
    split_ifs with h1 h2 h3 h4 <;> simp_all
  · intro h
    simp [Shutdown.should_shutdown_container, h]
  · intro h
    simp [Shutdown.should_shutdown_container, h]

/-- C7 witness: an inactivity rule with default protections and a
container holding one active connection: it is protected and skipped. -/
theorem protection_predicate_iff_witness :
    (Shutdown.is_container_protected Fixtures.rule_inact Fixtures.stats_conn =
        true ↔
      (Fixtures.stats_conn.uptime < Fixtures.rule_inact.min_uptime ∨
       (Fixtures.rule_inact.protect_if_connected = true ∧
         Fixtures.stats_conn.connections > 0) ∨
       (Fixtures.rule_inact.protect_if_uploading = true ∧
         Fixtures.stats_conn.network_tx_bytes >
           Fixtures.rule_inact.network_threshold * 10) ∨
       Fixtures.stats_conn.is_protected = true)) ∧
    (Shutdown.is_container_protected Fixtures.rule_inact Fixtures.stats_conn =
        true →
      Shutdown.should_shutdown_container Fixtures.rule_inact
        Fixtures.stats_conn true = false) ∧
    (Shutdown.is_container_protected Fixtures.rule_inact Fixtures.stats_conn =
        false →
      Shutdown.should_shutdown_container Fixtures.rule_inact
        Fixtures.stats_conn true =
        Shutdown.check_condition Fixtures.rule_inact Fixtures.stats_conn
          true) :=
  protection_predicate_iff Fixtures.rule_inact Fixtures.stats_conn true

/-! ## Claim C8 -/

/-- C8: triggering a hook point runs its subscribers in registration
order — the result list is exactly the image of the subscriber list, in
order, so there is one result entry per subscriber, a raising subscriber
contributes its captured error entry, and the remaining subscribers are
still invoked; hook registration appends the new callback at the tail of
the hook point's list. -/
theorem hooks_in_order_errors_isolated (α β : Type)
    (hooks : List (String × List (Plugins.Callback α β))) (ht : String)
    (cb : Plugins.Callback α β) (arg : α)
    (cbs : List (Plugins.Callback α β)) :
    Plugins.run_callbacks arg cbs =
      cbs.map (fun f =>
        match f arg with
        | Except.ok v => Plugins.HookResult.value v
        | Except.error e => Plugins.HookResult.errorEntry e) ∧
    (Plugins.run_callbacks arg cbs).length = cbs.length ∧
    Plugins.trigger_hook hooks ht arg =
      Plugins.run_callbacks arg ((lookupA hooks ht).getD []) ∧
    lookupA (Plugins.register_hook hooks ht cb) ht =
      some ((lookupA hooks ht).getD [] ++ [cb]) := by
  have hmap : Plugins.run_callbacks arg cbs =
      cbs.map (fun f =>
        match f arg with
        | Except.ok v => Plugins.HookResult.value v
        | Except.error e => Plugins.HookResult.errorEntry e) := by
    induction cbs with
    | nil => rfl
    | cons c cs ih =>
      rw [Plugins.run_callbacks.eq_def]
      cases hc : c arg with
      | ok v => simp [ih, hc]
      | error e => simp [ih, hc]
  refine ⟨hmap, by rw [hmap]; exact List.length_map _ _, ?_, ?_⟩
  · unfold Plugins.trigger_hook
    cases hl : lookupA hooks ht with
    | none => rfl
    | some cbs2 => rfl
  · unfold Plugins.register_hook
    cases hl : lookupA hooks ht with
    | none =>
      rw [lookupA_append_single_self hooks ht [cb] hl]
      simp
    | some ex =>
      rw [lookupA_insertA_self]
      simp

end Selfstart
